import Mathlib

/-!
Verification of the persistence and storage-pressure recovery subsystem of a
client-record register application.  The application stores client records in
a primary structured store (IndexedDB, object store keyed by the record id)
with a fallback flat store (a single serialized list under one localStorage
key).  This file embeds the relevant source functions as Lean definitions and
proves properties about them.

Source map (file and function each definition is translated from):
- isQuotaError, classifyPrimaryFailure, classifyFallbackFailure:
  the quota-error helper and the two classification expressions inside
  handleSaveEntry (the application root component file).
- handleSaveEntry, loadData, handleDeleteEntry, handleSaveTextOnly,
  makeNewEntry: the coordinator handlers in the application root component.
- getAllClients, stripOldPhotos, deleteOldRecords, getAllBackgrounds:
  the dbService methods in services/db.ts.

Modelling conventions: tier input and output is embedded by explicit state
passing over a World holding both tier contents, and failure injection
parameters (an Option Failure is none when the underlying operation
succeeds, some f when it rejects with failure f).  JavaScript thrown values
are modelled by the Failure type below; timestamps and ids are Int
(JavaScript numbers used only at integral values in the source).
-/

namespace Yatra

/-- A stored client record, translated field by field from the ClientEntry
interface in types.ts.  clientPhoto is an optional field; signatureImage is
string-or-null in the source, both embedded as Option String. -/
structure ClientEntry where
  id : Int
  uniqueCode : String
  clientName : String
  phone : String
  address : String
  servicePlan : String
  paymentDetails : String
  clientPhoto : Option String
  signatureImage : Option String
  timestamp : Int
deriving DecidableEq

/-- A background image record, from the BackgroundImage interface in
types.ts. -/
structure BackgroundImage where
  id : String
  dataUrl : String
deriving DecidableEq

/-- A JavaScript failure value as observed by the error handlers in the
source: either a DOMException (carrying a numeric legacy code, a name and a
message) or any other error value carrying a message.  The instanceof
DOMException test in isQuotaError is embedded as the constructor
distinction. -/
inductive Failure where
  | domException (code : Int) (name : String) (message : String)
  | jsError (message : String)
deriving DecidableEq

/-- Message text of a failure (the .message property read by the
classification expressions). -/
def Failure.message : Failure → String
  | .domException _ _ m => m
  | .jsError m => m

/-- Translation of the isQuotaError helper: true exactly for a DOMException
whose code is 22 or 1014 or whose name is QuotaExceededError or
NS_ERROR_DOM_QUOTA_REACHED. -/
def isQuotaError : Failure → Bool
  | .domException code name _ =>
      code == 22 || code == 1014 ||
      name == "QuotaExceededError" || name == "NS_ERROR_DOM_QUOTA_REACHED"
  | .jsError _ => false

/-- Decidable, kernel-computable check that pat occurs as a contiguous
sublist of s (the JavaScript String.prototype.includes on char lists). -/
def hasSubstr (pat : List Char) : List Char → Bool
  | [] => pat.isEmpty
  | c :: rest => pat.isPrefixOf (c :: rest) || hasSubstr pat rest

/-- Character-level lower-casing of a string (JavaScript toLowerCase on the
ASCII letters involved here). -/
def lowerChars (s : String) : List Char := s.toList.map Char.toLower

/-- Embedding of message.toLowerCase().includes(quota) from the save
handler. -/
def containsQuota (s : String) : Bool := hasSubstr "quota".toList (lowerChars s)

/-- Classification expression applied to the Primary-tier save failure in
handleSaveEntry: isQuotaError(err) or err.message lower-cased contains
quota. -/
def classifyPrimaryFailure (f : Failure) : Bool :=
  isQuotaError f || containsQuota f.message

/-- Classification expression applied to the Fallback-tier save failure in
handleSaveEntry: textually the same test as the Primary one. -/
def classifyFallbackFailure (f : Failure) : Bool :=
  isQuotaError f || containsQuota f.message

/-- State of the two storage tiers: the Primary IndexedDB object store
(keyed by id) and the Fallback localStorage backup list (stored newest
first, each fallback save prepends). -/
structure World where
  primary : List ClientEntry
  fallback : List ClientEntry
deriving DecidableEq

/-- IndexedDB put on a store with keyPath id: replaces the record holding
the same key, otherwise inserts. -/
def idbPut (e : ClientEntry) : List ClientEntry → List ClientEntry
  | [] => [e]
  | x :: xs => if x.id = e.id then e :: xs else x :: idbPut e xs

/-- IndexedDB delete by key: removes the record with the given id. -/
def idbDelete (id : Int) (l : List ClientEntry) : List ClientEntry :=
  l.filter (fun e => e.id ≠ id)

/-- Failure injection for a save: whether the Primary put rejects, and
whether the Fallback localStorage read-modify-write throws. -/
structure SaveFaults where
  primarySaveFail : Option Failure
  fallbackSaveFail : Option Failure
deriving DecidableEq

/-- Observable outcome of handleSaveEntry: saved via Primary (returns true),
storage-recovery modal opened with the failed entry (returns false),
saved via the localStorage fallback with a degraded-save alert (returns
true), or a fatal error alert (returns false). -/
inductive SaveOutcome where
  | savedPrimary
  | quotaExceeded (entry : ClientEntry)
  | savedFallback
  | fatal (err : Failure)
deriving DecidableEq

/-- Translation of handleSaveEntry: try the Primary put; on a failure
classified as quota, open the recovery modal and stop (no fallback attempt,
no retry, no state change); otherwise attempt the localStorage fallback,
which prepends the new entry to the stored backup list; a fallback failure
classified as quota again opens the recovery modal, any other fallback
failure is fatal. -/
def handleSaveEntry (entry : ClientEntry) (faults : SaveFaults) (w : World) :
    SaveOutcome × World :=
  match faults.primarySaveFail with
  | none => (.savedPrimary, { w with primary := idbPut entry w.primary })
  | some err =>
    if classifyPrimaryFailure err then
      (.quotaExceeded entry, w)
    else
      match faults.fallbackSaveFail with
      | none => (.savedFallback, { w with fallback := entry :: w.fallback })
      | some lsErr =>
        if classifyFallbackFailure lsErr then
          (.quotaExceeded entry, w)
        else
          (.fatal lsErr, w)

/-- Sort used by getAllClients: results.sort by comparator subtracting
timestamps, i.e. descending by timestamp (newest first). -/
def sortNewestFirst (l : List ClientEntry) : List ClientEntry :=
  l.mergeSort (fun a b => decide (b.timestamp ≤ a.timestamp))

/-- Translation of dbService.getAllClients: on an open or read failure the
rejection propagates to the caller (the catch block re-throws); on success
the store contents are returned sorted newest first. -/
def getAllClients (primary : List ClientEntry) (readFail : Option Failure) :
    Except Failure (List ClientEntry) :=
  match readFail with
  | some f => .error f
  | none => .ok (sortNewestFirst primary)

/-- Translation of the entries outcome of loadData in the root component.
The try block first awaits the Primary client read and sets the entries,
then awaits the background-image read; any rejection of either await lands
in the one catch, which reads the localStorage backup and overwrites the
entries with it when the key is present.  Hence: a Primary read failure
(the background read is never reached) yields the backup when its key is
present, the initial empty list when the key is absent or the backup read
throws; a background read failure after a successful Primary read likewise
overwrites the already-set Primary entries with the backup when present,
and keeps the Primary entries only when the key is absent or the backup
read throws.  The function is total: no failure propagates out of
loadData. -/
def loadData (primaryRes : Except Failure (List ClientEntry))
    (bgRes : Except Failure (List BackgroundImage))
    (localRaw : Except Failure (Option (List ClientEntry))) : List ClientEntry :=
  match primaryRes with
  | .ok data =>
    match bgRes with
    | .ok _ => data
    | .error _ =>
      match localRaw with
      | .ok (some l) => l
      | .ok none => data
      | .error _ => data
  | .error _ =>
    match localRaw with
    | .ok (some l) => l
    | .ok none => []
    | .error _ => []

/-- LoadAllClients over a world: compose getAllClients on the Primary store
with the loadData catch logic, with read-failure injection for each tier
and the background-image read result passed through. -/
def loadAllClients (w : World) (primaryReadFail : Option Failure)
    (bgRes : Except Failure (List BackgroundImage))
    (fallbackReadFails : Bool) : List ClientEntry :=
  loadData (getAllClients w.primary primaryReadFail) bgRes
    (if fallbackReadFails then .error (.jsError "storage unavailable")
     else .ok (some w.fallback))

/-- Outcome of handleDeleteEntry: success, or the single generic failure
alert (Error deleting record). -/
inductive DeleteOutcome where
  | ok
  | failed
deriving DecidableEq

/-- Translation of the confirmed branch of handleDeleteEntry: delete the id
from the Primary store; if that rejects, alert a generic failure and change
nothing (the fallback removal is not reached).  On Primary success,
best-effort filter the id out of the localStorage backup; a failure there is
swallowed by the empty catch and the outcome is still success. -/
def handleDeleteEntry (id : Int) (primaryDeleteFail : Option Failure)
    (fallbackRemoveFails : Bool) (w : World) : DeleteOutcome × World :=
  match primaryDeleteFail with
  | some _ => (.failed, w)
  | none =>
    let w1 : World := { w with primary := idbDelete id w.primary }
    if fallbackRemoveFails then
      (.ok, w1)
    else
      (.ok, { w1 with fallback := w1.fallback.filter (fun e => e.id ≠ id) })

/-- JavaScript truthiness of entry.clientPhoto as tested by stripOldPhotos:
present and not the empty string. -/
def photoTruthy (e : ClientEntry) : Bool :=
  match e.clientPhoto with
  | some s => decide (s ≠ "")
  | none => false

/-- Cursor walk of dbService.stripOldPhotos at a fixed cutoff: every record
older than the cutoff that has a truthy clientPhoto is updated in place with
clientPhoto removed and counted; every other record is left untouched. -/
def stripOldPhotos (cutoff : Int) : List ClientEntry → List ClientEntry × Nat
  | [] => ([], 0)
  | e :: rest =>
    let r := stripOldPhotos cutoff rest
    if e.timestamp < cutoff ∧ photoTruthy e then
      ({ e with clientPhoto := none } :: r.1, r.2 + 1)
    else
      (e :: r.1, r.2)

/-- Cutoff computed by both maintenance sweeps:
Date.now() minus days times 24 times 60 times 60 times 1000 ms. -/
def cutoffFor (now days : Int) : Int := now - days * (24 * 60 * 60 * 1000)

/-- Cursor walk of dbService.deleteOldRecords at a fixed cutoff: every
record older than the cutoff is deleted and counted; every other record is
left untouched. -/
def deleteOldRecords (cutoff : Int) : List ClientEntry → List ClientEntry × Nat
  | [] => ([], 0)
  | e :: rest =>
    let r := deleteOldRecords cutoff rest
    if e.timestamp < cutoff then
      (r.1, r.2 + 1)
    else
      (e :: r.1, r.2)

/-- dbService.stripOldPhotos with the cutoff computed from the current time
and the day threshold, as the source does. -/
def stripOldPhotosAt (now days : Int) (l : List ClientEntry) :
    List ClientEntry × Nat :=
  stripOldPhotos (cutoffFor now days) l

/-- dbService.deleteOldRecords with the cutoff computed from the current
time and the day threshold, as the source does. -/
def deleteOldRecordsAt (now days : Int) (l : List ClientEntry) :
    List ClientEntry × Nat :=
  deleteOldRecords (cutoffFor now days) l

/-- Outcome of the save-without-photo recovery action: the text-only copy
was stored, or the critical-storage-failure alert was shown. -/
inductive TextOnlyOutcome where
  | saved (entry : ClientEntry)
  | stillFailed
deriving DecidableEq

/-- Translation of handleSaveTextOnly in the storage recovery modal: build a
copy of the failed entry with clientPhoto removed and call
dbService.saveClient (the Primary-tier put) directly on that copy; on
success the copy is the stored form, on any failure an alert is shown and
nothing changes.  Note the source calls the Primary tier directly here, not
the cascading save handler. -/
def handleSaveTextOnly (failed : ClientEntry) (primarySaveFail : Option Failure)
    (w : World) : TextOnlyOutcome × World :=
  let entryNoPhoto : ClientEntry := { failed with clientPhoto := none }
  match primarySaveFail with
  | none => (.saved entryNoPhoto, { w with primary := idbPut entryNoPhoto w.primary })
  | some _ => (.stillFailed, w)

/-- Statement of the reduced-fidelity save following the claim wording
instead of the source: the photo-free copy is handed to the full save entry
point with its fallback cascade.  Kept solely to compare against
handleSaveTextOnly. -/
def handleSaveTextOnlyPerClaim (failed : ClientEntry) (faults : SaveFaults)
    (w : World) : SaveOutcome × World :=
  handleSaveEntry { failed with clientPhoto := none } faults w

/-- Record construction in handleSubmit: timestamp is Date.now() at creation
and the id is that timestamp plus a random integer below 1000. -/
def makeNewEntry (now rand : Int) (code name phone addr plan payment : String)
    (photo : Option String) (sig : Option String) : ClientEntry :=
  { id := now + rand
    uniqueCode := code
    clientName := name
    phone := phone
    address := addr
    servicePlan := plan
    paymentDetails := payment
    clientPhoto := photo
    signatureImage := sig
    timestamp := now }

/-- Translation of dbService.getAllBackgrounds with the JavaScript async
semantics of its try block made explicit: the await of openDB is inside the
try, so an open failure is caught and yields the empty list; a missing
backgrounds object store resolves to the empty list; but the promise built
around the getAll request is returned without an await, so a rejection of
that request bypasses the catch and propagates to the caller. -/
def getAllBackgrounds (openFails : Bool) (storePresent : Bool)
    (readFail : Option Failure) (contents : List BackgroundImage) :
    Except Failure (List BackgroundImage) :=
  if openFails then
    .ok []
  else if !storePresent then
    .ok []
  else
    match readFail with
    | some f => .error f
    | none => .ok contents

/-- Quota classification as worded by the spec: the failure carries one of
the recognized quota codes or names, or its message contains quota
case-insensitively. -/
def QuotaPerSpec (f : Failure) : Prop :=
  (∃ code name msg, f = .domException code name msg ∧
    (code = 22 ∨ code = 1014 ∨ name = "QuotaExceededError" ∨
      name = "NS_ERROR_DOM_QUOTA_REACHED")) ∨
  containsQuota f.message = true

/-- Number of occurrences of the record R in a list of records. -/
def countRecord (R : ClientEntry) (l : List ClientEntry) : Nat :=
  (l.filter (fun e => decide (e = R))).length

/-!
Shared sample values used by the concrete counterexamples and witnesses.
-/

/-- A concrete client record used in concrete instances. -/
def sampleEntry : ClientEntry :=
  { id := 1
    uniqueCode := "YATRA-01AB"
    clientName := "Asha"
    phone := "9900000000"
    address := ""
    servicePlan := "Darshan plan"
    paymentDetails := "2000 paid"
    clientPhoto := some "photo-data"
    signatureImage := none
    timestamp := 1000 }

/-- The empty two-tier state. -/
def emptyWorld : World := ⟨[], []⟩

/-- A DOMException carrying the recognized quota code and name. -/
def quotaDomFailure : Failure :=
  .domException 22 "QuotaExceededError" "The quota has been exceeded."

/-- A failure that is not quota-classified (no recognized code or name, no
quota substring in the message). -/
def otherFailure : Failure := .jsError "InvalidStateError while opening database"

/-- A failure quota-classified through its message text only. -/
def quotaMessageFailure : Failure := .jsError "exceeded the QUOTA on localStorage"

/-- A second failure that is not quota-classified. -/
def securityFailure : Failure := .jsError "security error in storage layer"

/-- A concrete read failure for the background store. -/
def readFailure : Failure := .jsError "read request failed"

/-- A concrete background image record. -/
def bgSample : BackgroundImage := ⟨"bg1", "dataurl"⟩

/-!
Helper lemmas about the embedded operations.
-/

/-- sortNewestFirst permutes its input. -/
lemma sortNewestFirst_perm (l : List ClientEntry) : (sortNewestFirst l).Perm l :=
  List.mergeSort_perm l _

/-- sortNewestFirst output is ordered newest first by timestamp. -/
lemma sortNewestFirst_sorted (l : List ClientEntry) :
    List.Pairwise (fun a b => b.timestamp ≤ a.timestamp) (sortNewestFirst l) := by
  unfold sortNewestFirst
  refine List.Pairwise.imp ?_ (List.sorted_mergeSort ?_ ?_ l)
  · exact fun h => of_decide_eq_true h
  · intro a b c hab hbc
    exact decide_eq_true (le_trans (of_decide_eq_true hbc) (of_decide_eq_true hab))
  · intro a b
    simp only [Bool.or_eq_true, decide_eq_true_eq]
    exact le_total b.timestamp a.timestamp

/-- countRecord is invariant under permutation. -/
lemma countRecord_perm {l l' : List ClientEntry} (R : ClientEntry)
    (h : l.Perm l') : countRecord R l = countRecord R l' :=
  (h.filter _).length_eq

/-- countRecord of a cons with the counted record itself. -/
lemma countRecord_cons_self (R : ClientEntry) (l : List ClientEntry) :
    countRecord R (R :: l) = countRecord R l + 1 := by
  simp [countRecord, List.filter_cons]

/-- countRecord of a cons with a different record. -/
lemma countRecord_cons_ne {x R : ClientEntry} (l : List ClientEntry) (h : x ≠ R) :
    countRecord R (x :: l) = countRecord R l := by
  simp [countRecord, List.filter_cons, h]

/-- Records whose id differs from the id of R are never counted as R. -/
lemma countRecord_zero_of_ids (R : ClientEntry) (l : List ClientEntry)
    (h : ∀ e ∈ l, e.id ≠ R.id) : countRecord R l = 0 := by
  induction l with
  | nil => rfl
  | cons x xs ih =>
    have hx : x ≠ R := fun he => (h x (List.mem_cons_self x xs)) (by rw [he])
    rw [countRecord_cons_ne xs hx]
    exact ih (fun e he => h e (List.mem_cons_of_mem x he))

/-- An IndexedDB put of R into a store with pairwise distinct ids leaves
exactly one occurrence of R. -/
lemma countRecord_idbPut (R : ClientEntry) (l : List ClientEntry)
    (h : l.Pairwise (fun a b => a.id ≠ b.id)) :
    countRecord R (idbPut R l) = 1 := by
  induction l with
  | nil =>
    show countRecord R [R] = 1
    rw [countRecord_cons_self]
    rfl
  | cons x xs ih =>
    rcases List.pairwise_cons.mp h with ⟨hx, hxs⟩
    by_cases hid : x.id = R.id
    · have hzero : countRecord R xs = 0 := by
        refine countRecord_zero_of_ids R xs (fun e he => ?_)
        rw [← hid]
        exact fun hcontra => hx e he hcontra.symm
      show countRecord R (if x.id = R.id then R :: xs else x :: idbPut R xs) = 1
      rw [if_pos hid, countRecord_cons_self, hzero]
    · have hxR : x ≠ R := fun he => hid (by rw [he])
      show countRecord R (if x.id = R.id then R :: xs else x :: idbPut R xs) = 1
      rw [if_neg hid, countRecord_cons_ne _ hxR]
      exact ih hxs

/-- Characterization of the surviving records of deleteOldRecords. -/
lemma deleteOldRecords_fst (c : Int) (l : List ClientEntry) :
    (deleteOldRecords c l).1 = l.filter (fun e => !decide (e.timestamp < c)) := by
  induction l with
  | nil => rfl
  | cons e rest ih =>
    by_cases h : e.timestamp < c
    · simp [deleteOldRecords, List.filter_cons, h, ih]
    · simp [deleteOldRecords, List.filter_cons, h, ih]

/-- Characterization of the count returned by deleteOldRecords. -/
lemma deleteOldRecords_snd (c : Int) (l : List ClientEntry) :
    (deleteOldRecords c l).2 =
      (l.filter (fun e => decide (e.timestamp < c))).length := by
  induction l with
  | nil => rfl
  | cons e rest ih =>
    by_cases h : e.timestamp < c
    · simp [deleteOldRecords, List.filter_cons, h, ih]
    · simp [deleteOldRecords, List.filter_cons, h, ih]

/-- Characterization of the records left by stripOldPhotos: each record is
mapped in place, touched only when old and holding a truthy photo. -/
lemma stripOldPhotos_fst (c : Int) (l : List ClientEntry) :
    (stripOldPhotos c l).1 =
      l.map (fun e =>
        if e.timestamp < c ∧ photoTruthy e = true then
          { e with clientPhoto := none } else e) := by
  induction l with
  | nil => rfl
  | cons e rest ih =>
    by_cases h : e.timestamp < c ∧ photoTruthy e = true
    · simp [stripOldPhotos, h, ih]
    · simp [stripOldPhotos, h, ih]

/-- Characterization of the count returned by stripOldPhotos. -/
lemma stripOldPhotos_snd (c : Int) (l : List ClientEntry) :
    (stripOldPhotos c l).2 =
      (l.filter (fun e => decide (e.timestamp < c) && photoTruthy e)).length := by
  induction l with
  | nil => rfl
  | cons e rest ih =>
    by_cases h : e.timestamp < c ∧ photoTruthy e = true
    · simp [stripOldPhotos, List.filter_cons, h, ih, h.1, h.2]
    · have hb : (decide (e.timestamp < c) && photoTruthy e) = false := by
        rcases Decidable.not_and_iff_or_not.mp h with h1 | h1
        · simp [h1]
        · simp [Bool.eq_false_iff.mpr h1]
      simp [stripOldPhotos, List.filter_cons, h, ih, hb]

/-- Running stripOldPhotos a second time with the same cutoff changes
nothing and counts nothing. -/
lemma stripOldPhotos_idem (c : Int) (l : List ClientEntry) :
    stripOldPhotos c (stripOldPhotos c l).1 = ((stripOldPhotos c l).1, 0) := by
  induction l with
  | nil => rfl
  | cons e rest ih =>
    by_cases h : e.timestamp < c ∧ photoTruthy e = true
    · have hstep : stripOldPhotos c (e :: rest) =
          ({ e with clientPhoto := none } :: (stripOldPhotos c rest).1,
            (stripOldPhotos c rest).2 + 1) := by
        simp [stripOldPhotos, h]
      rw [hstep]
      have hnophoto : photoTruthy { e with clientPhoto := none } = false := rfl
      simp [stripOldPhotos, hnophoto, ih]
    · have hstep : stripOldPhotos c (e :: rest) =
          (e :: (stripOldPhotos c rest).1, (stripOldPhotos c rest).2) := by
        simp [stripOldPhotos, h]
      rw [hstep]
      simp [stripOldPhotos, h, ih]

/-- The cutoff used by the maintenance sweeps equals now minus the day
threshold in milliseconds. -/
lemma cutoffFor_eq (now days : Int) : cutoffFor now days = now - days * 86400000 := by
  unfold cutoffFor
  norm_num

/-!
Claim theorems.
-/

/-- C1: SaveClient attempts the Primary tier first; on a quota-classified
Primary failure the result is the QuotaExceeded decision point with no
Fallback attempt (the outcome and state are the same whatever the Fallback
tier would have done) and no retry (no tier state changes); on an
other-classified Primary failure a Fallback save of the same record is
attempted, whose quota failure again yields QuotaExceeded and whose other
failure yields a fatal result. -/
theorem C1_save_cascade (e : ClientEntry) (w : World) (errQ errO errQ2 errO2 : Failure)
    (hq : classifyPrimaryFailure errQ = true)
    (ho : classifyPrimaryFailure errO = false)
    (hq2 : classifyFallbackFailure errQ2 = true)
    (ho2 : classifyFallbackFailure errO2 = false) :
    handleSaveEntry e ⟨none, none⟩ w =
      (.savedPrimary, { w with primary := idbPut e w.primary }) ∧
    (∀ fb : Option Failure,
      handleSaveEntry e ⟨some errQ, fb⟩ w = (.quotaExceeded e, w)) ∧
    handleSaveEntry e ⟨some errO, none⟩ w =
      (.savedFallback, { w with fallback := e :: w.fallback }) ∧
    handleSaveEntry e ⟨some errO, some errQ2⟩ w = (.quotaExceeded e, w) ∧
    handleSaveEntry e ⟨some errO, some errO2⟩ w = (.fatal errO2, w) := by
  refine ⟨rfl, ?_, ?_, ?_, ?_⟩
  · intro fb
    simp [handleSaveEntry, hq]
  · simp [handleSaveEntry, ho]
  · simp [handleSaveEntry, ho, hq2]
  · simp [handleSaveEntry, ho, hq2, ho2]

/-- Witness for C1 at concrete failures of each classification. -/
theorem C1_save_cascade_witness :
    handleSaveEntry sampleEntry ⟨none, none⟩ emptyWorld =
      (.savedPrimary, { emptyWorld with primary := idbPut sampleEntry emptyWorld.primary }) ∧
    handleSaveEntry sampleEntry ⟨some quotaDomFailure, none⟩ emptyWorld =
      (.quotaExceeded sampleEntry, emptyWorld) ∧
    handleSaveEntry sampleEntry ⟨some otherFailure, none⟩ emptyWorld =
      (.savedFallback, { emptyWorld with fallback := sampleEntry :: emptyWorld.fallback }) ∧
    handleSaveEntry sampleEntry ⟨some otherFailure, some quotaMessageFailure⟩ emptyWorld =
      (.quotaExceeded sampleEntry, emptyWorld) ∧
    handleSaveEntry sampleEntry ⟨some otherFailure, some securityFailure⟩ emptyWorld =
      (.fatal securityFailure, emptyWorld) := by
  obtain ⟨h1, h2, h3, h4, h5⟩ :=
    C1_save_cascade sampleEntry emptyWorld quotaDomFailure otherFailure
      quotaMessageFailure securityFailure (by decide) (by decide) (by decide) (by decide)
  exact ⟨h1, h2 none, h3, h4, h5⟩

/-- C2: the classifier applied to a Primary failure returns Quota exactly
when the failure is a DOMException with code 22 or 1014 or one of the two
recognized names, or when its message contains the substring quota
case-insensitively; and the Fallback classification is the same function. -/
theorem C2_quota_classifier :
    ∀ f : Failure,
      (classifyPrimaryFailure f = true ↔ QuotaPerSpec f) ∧
      classifyPrimaryFailure f = classifyFallbackFailure f := by
  intro f
  refine ⟨?_, rfl⟩
  cases f with
  | domException c n m =>
    simp only [classifyPrimaryFailure, isQuotaError, QuotaPerSpec, Failure.message,
      Bool.or_eq_true, beq_iff_eq, Failure.domException.injEq]
    constructor
    · rintro (hq | hm)
      · exact Or.inl ⟨c, n, m, ⟨rfl, rfl, rfl⟩, by tauto⟩
      · exact Or.inr hm
    · rintro (⟨code, name, msg, ⟨hc, hn, hmsg⟩, hrec⟩ | hm)
      · subst hc
        subst hn
        exact Or.inl (by tauto)
      · exact Or.inr hm
  | jsError m =>
    simp [classifyPrimaryFailure, isQuotaError, QuotaPerSpec, Failure.message]

/-- C3 counterexample: the Fallback save is a prepend, not an upsert.  With
the record already present in the Fallback store, a save served by the
Fallback tier followed by a Fallback-served load yields the record twice,
with no intervening delete. -/
theorem C3_counterexample :
    (handleSaveEntry sampleEntry ⟨some otherFailure, none⟩ ⟨[], [sampleEntry]⟩).1 =
      SaveOutcome.savedFallback ∧
    countRecord sampleEntry
      (loadAllClients
        (handleSaveEntry sampleEntry ⟨some otherFailure, none⟩ ⟨[], [sampleEntry]⟩).2
        (some (Failure.jsError "database unavailable")) (Except.ok []) false) = 2 := by
  decide

/-- C3 amended: SaveClient(R) followed by LoadAllClients() includes R
exactly once when the save is served by the Primary tier (a true upsert,
given pairwise distinct ids in the Primary store); when the save is served
by the Fallback tier, R is prepended, so a Fallback-served load includes R
once more than it was already present in the Fallback store. -/
theorem C3_save_then_load (R : ClientEntry) (w : World) (errO errRead : Failure)
    (bgs : List BackgroundImage) (bgRes : Except Failure (List BackgroundImage))
    (hids : w.primary.Pairwise (fun a b => a.id ≠ b.id))
    (ho : classifyPrimaryFailure errO = false) :
    countRecord R
      (loadAllClients (handleSaveEntry R ⟨none, none⟩ w).2 none (.ok bgs) false) = 1 ∧
    countRecord R
      (loadAllClients (handleSaveEntry R ⟨some errO, none⟩ w).2 (some errRead) bgRes false) =
      countRecord R w.fallback + 1 := by
  constructor
  · show countRecord R (sortNewestFirst (idbPut R w.primary)) = 1
    rw [countRecord_perm R (sortNewestFirst_perm (idbPut R w.primary))]
    exact countRecord_idbPut R w.primary hids
  · have hsave : (handleSaveEntry R ⟨some errO, none⟩ w).2 =
        { w with fallback := R :: w.fallback } := by
      simp [handleSaveEntry, ho]
    rw [hsave]
    show countRecord R (R :: w.fallback) = countRecord R w.fallback + 1
    exact countRecord_cons_self R w.fallback

/-- Witness for C3 at a concrete record, store and failures. -/
theorem C3_save_then_load_witness :
    countRecord sampleEntry
      (loadAllClients
        (handleSaveEntry sampleEntry ⟨none, none⟩ emptyWorld).2 none (.ok []) false) = 1 ∧
    countRecord sampleEntry
      (loadAllClients (handleSaveEntry sampleEntry ⟨some otherFailure, none⟩ emptyWorld).2
        (some readFailure) (Except.ok []) false) =
      countRecord sampleEntry emptyWorld.fallback + 1 :=
  C3_save_then_load sampleEntry emptyWorld otherFailure readFailure [] (Except.ok [])
    (by decide) (by decide)

/-- The reference time of the age scenario (an arbitrary instant in ms). -/
def demoNow : Int := 100000000000

/-- Helper making a demo record with a given id and timestamp. -/
def demoRecord (idv ts : Int) : ClientEntry :=
  { id := idv
    uniqueCode := "code"
    clientName := "c"
    phone := "p"
    address := ""
    servicePlan := "s"
    paymentDetails := "pd"
    clientPhoto := some "ph"
    signatureImage := none
    timestamp := ts }

/-- A record 400 days older than demoNow. -/
def demo400 : ClientEntry := demoRecord 1 (demoNow - 400 * 86400000)

/-- A record 200 days older than demoNow. -/
def demo200 : ClientEntry := demoRecord 2 (demoNow - 200 * 86400000)

/-- A record 10 days older than demoNow. -/
def demo10 : ClientEntry := demoRecord 3 (demoNow - 10 * 86400000)

/-- C4 counterexample: with the Primary client read succeeding, a failure
of the background-image read (reachable through the missing-await slip in
getAllBackgrounds) lands in the same catch of loadData, which overwrites
the already-loaded Primary entries with the Fallback backup: the load
returns exactly the Fallback contents and drops the Primary record even
though there was no Primary-tier read failure. -/
theorem C4_counterexample :
    loadAllClients ⟨[sampleEntry], [demo400]⟩ none
      (getAllBackgrounds false true (some readFailure) []) false = [demo400] ∧
    sampleEntry ∉ ([demo400] : List ClientEntry) :=
  ⟨rfl, by decide⟩

/-- C4 amended: a load whose Primary client read and background-image read
both succeed returns the Primary records (a permutation of the store)
ordered newest first by timestamp; on any Primary read failure the
background read is never reached and exactly the Fallback contents are
returned, never a union of the tiers (and in newest-first order whenever
the Fallback list is in that order, which the prepend-only Fallback writes
maintain); if both client reads fail the result is the empty sequence
instead of a raised error (loadData is total); an empty store yields the
empty sequence; and, the path the original claim misses, a background-read
failure after a successful Primary client read overwrites the result with
the Fallback backup when one is present, keeping the Primary result only
when the backup cannot be read. -/
theorem C4_load_all_clients_amended (w : World) (f fbg : Failure)
    (bgs : List BackgroundImage)
    (hfb : List.Pairwise (fun a b => b.timestamp ≤ a.timestamp) w.fallback) :
    (loadAllClients w none (.ok bgs) false).Perm w.primary ∧
    List.Pairwise (fun a b => b.timestamp ≤ a.timestamp)
      (loadAllClients w none (.ok bgs) false) ∧
    (∀ bgRes, loadAllClients w (some f) bgRes false = w.fallback) ∧
    List.Pairwise (fun a b => b.timestamp ≤ a.timestamp)
      (loadAllClients w (some f) (.ok bgs) false) ∧
    (∀ bgRes, loadAllClients w (some f) bgRes true = []) ∧
    loadAllClients ⟨[], []⟩ none (.ok bgs) false = ([] : List ClientEntry) ∧
    loadAllClients w none (.error fbg) false = w.fallback ∧
    loadAllClients w none (.error fbg) true = sortNewestFirst w.primary := by
  refine ⟨sortNewestFirst_perm w.primary, sortNewestFirst_sorted w.primary,
    fun bgRes => rfl, hfb, fun bgRes => rfl, ?_, rfl, rfl⟩
  simp [loadAllClients, getAllClients, loadData, sortNewestFirst]

/-- Witness for C4 at a concrete two-record store with a sorted Fallback
list. -/
theorem C4_load_all_clients_amended_witness :
    (loadAllClients ⟨[sampleEntry], [sampleEntry]⟩ none (.ok []) false).Perm [sampleEntry] ∧
    List.Pairwise (fun a b => b.timestamp ≤ a.timestamp)
      (loadAllClients ⟨[sampleEntry], [sampleEntry]⟩ none (.ok []) false) ∧
    loadAllClients ⟨[sampleEntry], [sampleEntry]⟩ (some readFailure) (.ok []) false =
      [sampleEntry] ∧
    List.Pairwise (fun a b => b.timestamp ≤ a.timestamp)
      (loadAllClients ⟨[sampleEntry], [sampleEntry]⟩ (some readFailure) (.ok []) false) ∧
    loadAllClients ⟨[sampleEntry], [sampleEntry]⟩ (some readFailure) (.ok []) true = [] ∧
    loadAllClients ⟨[], []⟩ none (.ok []) false = ([] : List ClientEntry) ∧
    loadAllClients ⟨[sampleEntry], [sampleEntry]⟩ none (.error readFailure) false =
      [sampleEntry] ∧
    loadAllClients ⟨[sampleEntry], [sampleEntry]⟩ none (.error readFailure) true =
      sortNewestFirst [sampleEntry] := by
  obtain ⟨h1, h2, h3, h4, h5, h6, h7, h8⟩ :=
    C4_load_all_clients_amended ⟨[sampleEntry], [sampleEntry]⟩ readFailure readFailure []
      (by decide)
  exact ⟨h1, h2, h3 (.ok []), h4, h5 (.ok []), h6, h7, h8⟩

/-- C5: DeleteOldRecords(d) keeps exactly the records whose timestamp is at
least now minus d times 86400000 ms, unchanged, and returns the number of
strictly older records it removed; in particular on records aged 400, 200
and 10 days a threshold of 365 days removes only the 400-day record and
returns count 1. -/
theorem C5_delete_old_records :
    ∀ (now days : Int) (l : List ClientEntry),
      (deleteOldRecordsAt now days l).1 =
        l.filter (fun e => !decide (e.timestamp < now - days * 86400000)) ∧
      (deleteOldRecordsAt now days l).2 =
        (l.filter (fun e => decide (e.timestamp < now - days * 86400000))).length ∧
      deleteOldRecordsAt demoNow 365 [demo400, demo200, demo10] = ([demo200, demo10], 1) := by
  intro now days l
  refine ⟨?_, ?_, by decide⟩
  · have h := deleteOldRecords_fst (cutoffFor now days) l
    rw [cutoffFor_eq] at h
    exact h
  · have h := deleteOldRecords_snd (cutoffFor now days) l
    rw [cutoffFor_eq] at h
    exact h

/-- C6: StripOldAttachments(d) counts exactly the records older than the
cutoff that hold a truthy (present, non-empty) clientPhoto, clears the
photo of exactly those records leaving every other record untouched, and is
idempotent: a second run at the same reference time and threshold returns
count 0 and the same store. -/
theorem C6_strip_old_attachments :
    ∀ (now days : Int) (l : List ClientEntry),
      (stripOldPhotosAt now days l).2 =
        (l.filter (fun e =>
          decide (e.timestamp < now - days * 86400000) && photoTruthy e)).length ∧
      (stripOldPhotosAt now days l).1 =
        l.map (fun e =>
          if e.timestamp < now - days * 86400000 ∧ photoTruthy e = true then
            { e with clientPhoto := none } else e) ∧
      stripOldPhotosAt now days (stripOldPhotosAt now days l).1 =
        ((stripOldPhotosAt now days l).1, 0) := by
  intro now days l
  refine ⟨?_, ?_, stripOldPhotos_idem (cutoffFor now days) l⟩
  · have h := stripOldPhotos_snd (cutoffFor now days) l
    rw [cutoffFor_eq] at h
    exact h
  · have h := stripOldPhotos_fst (cutoffFor now days) l
    rw [cutoffFor_eq] at h
    exact h

/-- C7 counterexample: the save-without-photo action does not go through
the cascading save entry point.  At an input where the cascade would have
completed a degraded Fallback save of the photo-free copy, the source
instead reports a critical failure and writes nothing. -/
theorem C7_counterexample :
    (handleSaveTextOnly sampleEntry (some otherFailure) ⟨[], []⟩).1 =
      TextOnlyOutcome.stillFailed ∧
    (handleSaveTextOnlyPerClaim sampleEntry ⟨some otherFailure, none⟩ ⟨[], []⟩).1 =
      SaveOutcome.savedFallback ∧
    (handleSaveTextOnly sampleEntry (some otherFailure) ⟨[], []⟩).2 ≠
      (handleSaveTextOnlyPerClaim sampleEntry ⟨some otherFailure, none⟩ ⟨[], []⟩).2 := by
  decide

/-- C7 amended: the reduced-fidelity save builds a copy of the failed
record with clientPhoto cleared and every other field unchanged, and hands
exactly that copy to the Primary-tier save (not the cascading entry point);
on success only the copy is stored, on failure nothing is written and never
is the original with its attachment retried. -/
theorem C7_reduced_fidelity :
    ∀ (R : ClientEntry) (w : World) (f : Failure),
      ({ R with clientPhoto := none } : ClientEntry).clientPhoto = none ∧
      ({ R with clientPhoto := none } : ClientEntry).id = R.id ∧
      ({ R with clientPhoto := none } : ClientEntry).timestamp = R.timestamp ∧
      ({ R with clientPhoto := none } : ClientEntry).uniqueCode = R.uniqueCode ∧
      ({ R with clientPhoto := none } : ClientEntry).clientName = R.clientName ∧
      ({ R with clientPhoto := none } : ClientEntry).phone = R.phone ∧
      ({ R with clientPhoto := none } : ClientEntry).address = R.address ∧
      ({ R with clientPhoto := none } : ClientEntry).servicePlan = R.servicePlan ∧
      ({ R with clientPhoto := none } : ClientEntry).paymentDetails = R.paymentDetails ∧
      ({ R with clientPhoto := none } : ClientEntry).signatureImage = R.signatureImage ∧
      handleSaveTextOnly R none w =
        (.saved { R with clientPhoto := none },
          { w with primary := idbPut { R with clientPhoto := none } w.primary }) ∧
      handleSaveTextOnly R (some f) w = (.stillFailed, w) := by
  intro R w f
  exact ⟨rfl, rfl, rfl, rfl, rfl, rfl, rfl, rfl, rfl, rfl, rfl, rfl⟩

/-- The records surviving a sorted read of a Primary delete all carry a
different id from the deleted one. -/
lemma all_ne_of_sort_delete (idv : Int) (l : List ClientEntry) :
    (sortNewestFirst (idbDelete idv l)).all (fun e => decide (e.id ≠ idv)) = true := by
  rw [List.all_eq_true]
  intro e he
  have hmem : e ∈ idbDelete idv l :=
    ((sortNewestFirst_perm (idbDelete idv l)).mem_iff).mp he
  exact (List.mem_filter.mp hmem).2

/-- C8 counterexample: when the best-effort Fallback removal fails (and is
swallowed), a successful delete can still be followed by a Fallback-served
load that includes the deleted id. -/
theorem C8_counterexample :
    (handleDeleteEntry 1 none true ⟨[sampleEntry], [sampleEntry]⟩).1 = DeleteOutcome.ok ∧
    ((loadAllClients (handleDeleteEntry 1 none true ⟨[sampleEntry], [sampleEntry]⟩).2
        (some (Failure.jsError "database unavailable")) (Except.ok []) false).any
      (fun e => decide (e.id = 1))) = true := by
  decide

/-- C8 amended: DeleteClient deletes the id from Primary and best-effort
filters it out of Fallback, any Fallback-removal failure being swallowed
with the outcome still success; a Primary delete failure yields the single
generic failure outcome with both tiers unchanged; after a successful
delete a Primary-served load never includes the id, and a Fallback-served
load never includes it provided the Fallback removal succeeded. -/
theorem C8_delete_client :
    ∀ (idv : Int) (w : World) (f : Failure) (b : Bool)
      (bgs : List BackgroundImage) (bgRes : Except Failure (List BackgroundImage)),
      handleDeleteEntry idv (some f) b w = (.failed, w) ∧
      handleDeleteEntry idv none true w = (.ok, ⟨idbDelete idv w.primary, w.fallback⟩) ∧
      handleDeleteEntry idv none false w =
        (.ok, ⟨idbDelete idv w.primary, w.fallback.filter (fun e => e.id ≠ idv)⟩) ∧
      (loadAllClients (handleDeleteEntry idv none b w).2 none (.ok bgs) false).all
        (fun e => decide (e.id ≠ idv)) = true ∧
      (loadAllClients (handleDeleteEntry idv none false w).2 (some f) bgRes false).all
        (fun e => decide (e.id ≠ idv)) = true := by
  intro idv w f b bgs bgRes
  refine ⟨rfl, rfl, rfl, ?_, ?_⟩
  · cases b
    · exact all_ne_of_sort_delete idv w.primary
    · exact all_ne_of_sort_delete idv w.primary
  · show (w.fallback.filter (fun e => decide (e.id ≠ idv))).all
      (fun e => decide (e.id ≠ idv)) = true
    rw [List.all_eq_true]
    intro e he
    exact (List.mem_filter.mp he).2

/-- C9 counterexample: two records created at different instants (distinct
timestamps) with in-range random offsets receive the same id, so id
uniqueness is not guaranteed by the generation scheme. -/
theorem C9_counterexample :
    (makeNewEntry 1000 5 "code" "n" "p" "a" "s" "pd" none none).id =
      (makeNewEntry 1002 3 "code" "n" "p" "a" "s" "pd" none none).id ∧
    (0 : Int) ≤ 5 ∧ (5 : Int) < 1000 ∧ (0 : Int) ≤ 3 ∧ (3 : Int) < 1000 ∧
    (makeNewEntry 1000 5 "code" "n" "p" "a" "s" "pd" none none).timestamp ≠
      (makeNewEntry 1002 3 "code" "n" "p" "a" "s" "pd" none none).timestamp := by
  decide

/-- C9 amended: a created record carries its creation time as timestamp and
an id equal to that time plus the random offset (monotonically biased:
within 1000 of the creation time), but uniqueness is not enforced; and no
operation mutates id or timestamp after creation: stripOldPhotos preserves
the id and timestamp of every record and deleteOldRecords only removes
records, leaving the survivors unchanged. -/
theorem C9_id_timestamp_immutable :
    ∀ (now rand c : Int) (l : List ClientEntry)
      (code name phone addr plan payment : String) (photo sig : Option String),
      (0 ≤ rand → rand < 1000 →
        (makeNewEntry now rand code name phone addr plan payment photo sig).timestamp = now ∧
        now ≤ (makeNewEntry now rand code name phone addr plan payment photo sig).id ∧
        (makeNewEntry now rand code name phone addr plan payment photo sig).id < now + 1000) ∧
      (stripOldPhotos c l).1.map (fun e => (e.id, e.timestamp)) =
        l.map (fun e => (e.id, e.timestamp)) ∧
      (deleteOldRecords c l).1.Sublist l := by
  intro now rand c l code name phone addr plan payment photo sig
  refine ⟨?_, ?_, ?_⟩
  · intro h0 h1
    refine ⟨rfl, ?_, ?_⟩
    · show now ≤ now + rand
      omega
    · show now + rand < now + 1000
      omega
  · rw [stripOldPhotos_fst, List.map_map]
    refine List.map_congr_left (fun a _ => ?_)
    by_cases hcond : a.timestamp < c ∧ photoTruthy a = true
    · simp [hcond]
    · simp [hcond]
  · rw [deleteOldRecords_fst]
    exact List.filter_sublist l

/-- Witness for C9 at a concrete creation and store. -/
theorem C9_id_timestamp_immutable_witness :
    (makeNewEntry 1000 5 "code" "n" "p" "a" "s" "pd" none none).timestamp = 1000 ∧
    (1000 : Int) ≤ (makeNewEntry 1000 5 "code" "n" "p" "a" "s" "pd" none none).id ∧
    (makeNewEntry 1000 5 "code" "n" "p" "a" "s" "pd" none none).id < 1000 + 1000 ∧
    (stripOldPhotos 0 [sampleEntry]).1.map (fun e => (e.id, e.timestamp)) =
      [sampleEntry].map (fun e => (e.id, e.timestamp)) ∧
    (deleteOldRecords 0 [sampleEntry]).1.Sublist [sampleEntry] := by
  obtain ⟨h1, h2, h3⟩ :=
    C9_id_timestamp_immutable 1000 5 0 [sampleEntry] "code" "n" "p" "a" "s" "pd" none none
  obtain ⟨ha, hb, hc⟩ := h1 (by decide) (by decide)
  exact ⟨ha, hb, hc, h2, h3⟩

/-- C10: loading the background collection swallows an open failure and a
missing sub-collection (both yield the empty list), but a failure of the
read request itself escapes: the promise is returned without an await, so
its rejection bypasses the catch and propagates to the caller, against the
evident intent of the catch-and-return-empty block. -/
theorem C10_get_all_backgrounds :
    getAllBackgrounds true true (some readFailure) [bgSample] = Except.ok [] ∧
    getAllBackgrounds true true none [bgSample] = Except.ok [] ∧
    getAllBackgrounds false false none [bgSample] = Except.ok [] ∧
    getAllBackgrounds false true none [bgSample] = Except.ok [bgSample] ∧
    getAllBackgrounds false true (some readFailure) [bgSample] = Except.error readFailure :=
  ⟨rfl, rfl, rfl, rfl, rfl⟩

end Yatra
